import Mathlib

/-!
# TinyRender: the normal integrator and the simple render pass

A shallow embedding of
* `src/A1/a1_starter/a1_starter/src/integrators/normal.h` (`NormalIntegrator::render`), and
* `src/handIN/a2_Yingnan_Zhao/src/renderpasses/simple.h` (`SimplePass::init`, `cleanUp`, `render`).

Scalars: a finite `float` is a dyadic rational, and the only scalar operations in the two
files are the literal `0.f` and `glm::abs`, both exact, so a `float` is embedded as a rational
number (NaN and the infinities are outside the model).
-/

namespace TinyRender

/-! ## Data model of the ray-tracing side -/

/-- Vector `v3f` (`glm::vec3`): three `float` components. -/
structure V3f where
  x : ℚ
  y : ℚ
  z : ℚ
  deriving DecidableEq, Repr

instance : Inhabited V3f := ⟨⟨0, 0, 0⟩⟩

/-- Scalar `glm::abs` on a signed type: `x >= 0 ? x : -x`. -/
def absf (x : ℚ) : ℚ := if 0 ≤ x then x else -x

/-- Vector `glm::abs`: the scalar function applied to every component. -/
def V3f.abs (v : V3f) : V3f := ⟨absf v.x, absf v.y, absf v.z⟩

/-- Ray: origin, direction and the valid parametric interval. -/
structure Ray where
  o : V3f
  d : V3f
  min_t : ℚ
  max_t : ℚ
  deriving DecidableEq, Repr

/-- Local frame: tangent `s`, bitangent `t` and normal `n`. -/
structure Frame where
  s : V3f
  t : V3f
  n : V3f
  deriving DecidableEq, Repr, Inhabited

/-- Result of a successful intersection: hit point, parametric distance, shading frame
`frameNs` and the reference to the material of the surface that was hit. -/
structure SurfaceInteraction where
  p : V3f
  t : ℚ
  frameNs : Frame
  matID : Nat
  deriving DecidableEq, Repr, Inhabited

/-- Surface material descriptor: a diffuse material with its albedo, or a Phong material
with diffuse reflectance, specular reflectance and exponent. -/
inductive BSDF where
  | diffuse (albedo : V3f)
  | phong (rho_d rho_s : V3f) (exponent : ℚ)
  deriving DecidableEq, Repr, Inhabited

/-- Shape of the scene (`tinyobj::shape_t`): its name and the material ids of its mesh. Only
the helpers outside the two source files look inside a shape. -/
structure Shape where
  name : String
  material_ids : List Int
  deriving DecidableEq, Repr, Inhabited

/-- Accelerator behind `scene.bvh`. The C++ call `bvh->intersect(ray, info)` returns the hit
flag and fills the out-parameter `info`; here both come back as a pair. The query is a function
of the ray: it is deterministic for a fixed scene. -/
structure AcceleratorBVH where
  intersect : Ray → Bool × SurfaceInteraction

/-- Scene: the shape list (`worldData.shapes`), the material list (`bsdfs`) and the spatial
index (`bvh`). -/
structure Scene where
  shapes : List Shape
  bsdfs : List BSDF
  bvh : AcceleratorBVH

/-- Sampler: a stateful sequence source; `state` is its position in the sequence. -/
structure Sampler where
  state : Nat
  deriving DecidableEq, Repr, Inhabited

/-- Modelled from the spec: the spatial index built over no shapes (the BVH construction is
not part of the sources); every query reports no hit. -/
def emptyBVH : AcceleratorBVH := ⟨fun _ => (false, default)⟩

/-- Modelled from the spec: the empty scene, no shapes and no materials, indexed by
`emptyBVH`. -/
def emptyScene : Scene := ⟨[], [], emptyBVH⟩

/-! ## `NormalIntegrator::render` -/

/-- Everything a call of `render` can reach: the scene (held by `const&` in the integrator)
and the sampler (passed by reference). -/
structure RenderCtx where
  scene : Scene
  sampler : Sampler

/-- Method `NormalIntegrator::render(ray, sampler)` with explicit state passing: the
colour returned, and the context after the call. The body queries `scene.bvh->intersect`
and returns `glm::abs(info.frameNs.n)` on a hit and `v3f(0,0,0)` otherwise; it contains no
write to the scene and no call on the sampler, so the context is returned as it came. -/
def NormalIntegrator.render (ctx : RenderCtx) (ray : Ray) : V3f × RenderCtx :=
  let res := ctx.scene.bvh.intersect ray
  let info := res.2
  if res.1 then
    (V3f.abs info.frameNs.n, ctx)
  else
    (⟨0, 0, 0⟩, ctx)

/-- Colour returned by one call of `render` on `scene` with `sampler`. -/
def renderColor (scene : Scene) (ray : Ray) (sampler : Sampler) : V3f :=
  (NormalIntegrator.render ⟨scene, sampler⟩ ray).1

/-- Repeated calls: `render` is called on each ray of the list in turn, the context of one
call being handed to the next; the colours are collected in call order. -/
def renderAll : RenderCtx → List Ray → List V3f × RenderCtx
  | ctx, [] => ([], ctx)
  | ctx, ray :: rest =>
    let r := NormalIntegrator.render ctx ray
    let rs := renderAll r.2 rest
    (r.1 :: rs.1, rs.2)

/-- A scene with one shape whose query always hits with shading normal `n`, the shape
carrying a diffuse material of the given albedo. -/
def oneShapeScene (n albedo : V3f) : Scene :=
  ⟨[⟨"quad", [0]⟩], [BSDF.diffuse albedo], ⟨fun ray => (true, ⟨ray.o, 1, ⟨⟨1, 0, 0⟩, ⟨0, 1, 0⟩, n⟩, 0⟩)⟩⟩

/-- A ray travelling down the z axis from `(0,0,5)`. -/
def sampleRay : Ray := ⟨⟨0, 0, 5⟩, ⟨0, 0, -1⟩, 0, 1000⟩

/-! ## Data model of the rasterisation side -/

/-- Handle type `GLuint`: an unsigned 32-bit integer. No arithmetic is done on handles. -/
abbrev GLuint := Nat

/-- Conversion `GLuint(x)` of a signed `GLint`: reduction modulo `2^32`. -/
def toGLuint (x : Int) : GLuint := (x % 4294967296).toNat

/-- Matrix `glm::mat4`: its sixteen `float` entries, column by column. -/
structure Mat4 where
  elems : List ℚ
  deriving DecidableEq, Repr, Inhabited

/-- Drawable record `GLObject`, with the fields the render pass reads. -/
structure GLObject where
  vao : GLuint
  vbo : GLuint
  nVerts : Int
  shaderID : GLuint
  shaderIdx : Int
  albedo : V3f
  rho_d : V3f
  rho_s : V3f
  exponent : ℚ
  deriving DecidableEq, Repr, Inhabited

/-- Constant `GL_FALSE` of the OpenGL headers. -/
def GL_FALSE : Nat := 0
/-- Constant `GL_TRIANGLES` of the OpenGL headers. -/
def GL_TRIANGLES : Nat := 0x0004
/-- Constant `GL_DEPTH_BUFFER_BIT` of the OpenGL headers. -/
def GL_DEPTH_BUFFER_BIT : Nat := 0x0100
/-- Constant `GL_COLOR_BUFFER_BIT` of the OpenGL headers. -/
def GL_COLOR_BUFFER_BIT : Nat := 0x4000
/-- Constant `GL_DEPTH_TEST` of the OpenGL headers. -/
def GL_DEPTH_TEST : Nat := 0x0B71
/-- Constant `GL_FRAMEBUFFER_SRGB` of the OpenGL headers. -/
def GL_FRAMEBUFFER_SRGB : Nat := 0x8DB9
/-- Constant `GL_FRAGMENT_SHADER` of the OpenGL headers. -/
def GL_FRAGMENT_SHADER : Nat := 0x8B30
/-- Constant `GL_VERTEX_SHADER` of the OpenGL headers. -/
def GL_VERTEX_SHADER : Nat := 0x8B31

/-- One call that leaves the render pass: an OpenGL entry point with its arguments (and its
result, where it has one), a call on the camera, or a call of a `RenderPass` member that
`simple.h` uses but does not define. -/
inductive Call where
  | glClearColor (r g b a : ℚ)
  | glClear (mask : Nat)
  | glEnable (cap : Nat)
  | glUseProgram (program : GLuint)
  | glGetUniformLocation (program : GLuint) (name : String) (ret : Int)
  | glUniformMatrix4fv (location : GLuint) (count : Int) (transpose : Nat) (value : Mat4)
  | glUniform3f (location : GLuint) (v0 v1 v2 : ℚ)
  | glUniform1f (location : GLuint) (v0 : ℚ)
  | glBindVertexArray (array : GLuint)
  | glDrawArrays (mode : Nat) (first count : Int)
  | glDeleteBuffers (n : Int) (buffer : GLuint)
  | glDeleteVertexArrays (n : Int) (array : GLuint)
  | glDeleteShader (shader : GLuint)
  | compileShader (path : String) (shaderType : Nat) (ret : GLuint)
  | compileProgram (vs fs : GLuint) (ret : GLuint)
  | buildVBO (objectIdx : Nat)
  | buildVAO (objectIdx : Nat)
  | assignShader (objectIdx shapeIdx : Nat)
  | cameraUpdate
  | cameraGetMatricies
  | baseInit (ret : Bool)
  | baseCleanUp
  | baseRender
  deriving DecidableEq, Repr

/-- Camera member of the pass: the position read by `render`, and the rest of its state. -/
structure Camera where
  camera_position : V3f
  pose : List ℚ
  deriving DecidableEq, Repr, Inhabited

/-- Construction options handed to `init`; the pass itself does not look inside. -/
structure Config where
  options : List String
  deriving DecidableEq, Repr, Inhabited

/-- Member state of a `SimplePass` (declared in its base `RenderPass`): the drawable records,
the program of each shading model, the model and normal matrices, the light, the camera. -/
structure SimplePass where
  objects : List GLObject
  shaders : Nat → GLuint
  modelMat : Mat4
  normalMat : Mat4
  lightPos : V3f
  lightIntensity : V3f
  camera : Camera

/-- State threaded through a member function: the pass and the calls issued so far. -/
structure World where
  pass : SimplePass
  log : List Call

/-- What `simple.h` uses and does not define. The constants `N_SHADERS`, `shadersName`,
`DIFFUSE_SHADER_IDX`, `PHONG_SHADER_IDX`; the base-class members `RenderPass::init`,
`cleanUp`, `render` (any transformation of the member state), `buildVBO` and `buildVAO` (the
new value of record `objectIdx`), `assignShader` (the new value of the record passed by
reference), `compileShader` and `compileProgram` (the handle returned, which may depend on
the calls made before); the driver function `glGetUniformLocation`; the camera methods
`Update` and `GetMatricies` (the latter returns projection, view and model, in this
order). -/
structure Platform where
  N_SHADERS : Nat
  shadersName : Nat → String
  DIFFUSE_SHADER_IDX : Int
  PHONG_SHADER_IDX : Int
  baseInit : Config → SimplePass → Bool × SimplePass
  baseCleanUp : SimplePass → SimplePass
  baseRender : SimplePass → SimplePass
  compileShader : List Call → String → Nat → GLuint
  compileProgram : List Call → GLuint → GLuint → GLuint
  buildVBO : SimplePass → Scene → Nat → GLObject
  buildVAO : SimplePass → Scene → Nat → GLObject
  assignShader : SimplePass → GLObject → Shape → List BSDF → GLObject
  glGetUniformLocation : GLuint → String → Int
  cameraUpdate : Camera → Camera
  cameraGetMatricies : Camera → Mat4 × Mat4 × Mat4

/-- Append one call to the log. -/
def World.call (w : World) (c : Call) : World := { w with log := w.log ++ [c] }

/-- Assignment `shaders[i] = program`. -/
def World.setShader (w : World) (i : Nat) (program : GLuint) : World :=
  { w with pass := { w.pass with shaders := Function.update w.pass.shaders i program } }

/-- Assignment to `objects[i]`. -/
def World.setObject (w : World) (i : Nat) (obj : GLObject) : World :=
  { w with pass := { w.pass with objects := w.pass.objects.set i obj } }

/-- Method `std::vector::resize(n)`: keeps the first `n` elements and pads with
default-constructed ones up to length `n`. -/
def resize (xs : List GLObject) (n : Nat) : List GLObject :=
  xs.take n ++ List.replicate (n - xs.length) default

/-- Element access `objects[i]` of a copy of the record; the loops only use it with
`i < objects.size()`. -/
def SimplePass.object (p : SimplePass) (i : Nat) : GLObject := p.objects.getD i default

/-- Loop `for (i = start; i < bound; i++) body`, where the bound is re-read from the state
before every iteration; `fuel` caps the number of iterations. -/
def forLoop {σ : Type} (bound : σ → Nat) (body : Nat → σ → σ) : Nat → Nat → σ → σ
  | 0, _, s => s
  | fuel + 1, i, s => if i < bound s then forLoop bound body fuel (i + 1) (body i s) else s

/-! ## `SimplePass::init` -/

/-- Body of the first loop of `init` (lines 27-32): compile the shared vertex stage and the
fragment stage named after the shading model, link them into `shaders[i]`, delete the two
stages. -/
def initShaderBody (env : Platform) (i : Nat) (w : World) : World :=
  let name := env.shadersName i
  let vs := env.compileShader w.log "simple.vs" GL_VERTEX_SHADER
  let w := w.call (.compileShader "simple.vs" GL_VERTEX_SHADER vs)
  let fs := env.compileShader w.log (name ++ ".fs") GL_FRAGMENT_SHADER
  let w := w.call (.compileShader (name ++ ".fs") GL_FRAGMENT_SHADER fs)
  let program := env.compileProgram w.log vs fs
  let w := w.call (.compileProgram vs fs program)
  let w := w.setShader i program
  let w := w.call (.glDeleteShader vs)
  w.call (.glDeleteShader fs)

/-- Body of the second loop of `init` (lines 39-41): `buildVBO(i)`, `buildVAO(i)`,
`assignShader(objects[i], shapes[i], scene.bsdfs)`. -/
def initObjectBody (env : Platform) (scene : Scene) (i : Nat) (w : World) : World :=
  let w := (w.setObject i (env.buildVBO w.pass scene i)).call (.buildVBO i)
  let w := (w.setObject i (env.buildVAO w.pass scene i)).call (.buildVAO i)
  let obj := env.assignShader w.pass (w.pass.object i) (scene.shapes.getD i default) scene.bsdfs
  (w.setObject i obj).call (.assignShader i i)

/-- Method `SimplePass::init(config)`: the value returned and the state after the call. The
result of `RenderPass::init(config)` is discarded, as in the source. -/
def SimplePass.init (env : Platform) (scene : Scene) (config : Config) (p : SimplePass) :
    Bool × World :=
  let r := env.baseInit config p
  let w : World := ⟨r.2, [.baseInit r.1]⟩
  let w := forLoop (fun _ => env.N_SHADERS) (initShaderBody env) env.N_SHADERS 0 w
  let shapes := scene.shapes
  let w : World := { w with pass := { w.pass with objects := resize w.pass.objects shapes.length } }
  let w := forLoop (fun v => v.pass.objects.length) (initObjectBody env scene)
    w.pass.objects.length 0 w
  (true, w)

/-! ## `SimplePass::cleanUp` -/

/-- Statement `GLuint u = GLuint(glGetUniformLocation(program, name))`: the value of `u` and
the state after the call. -/
def getUniformLocation (env : Platform) (w : World) (program : GLuint) (name : String) :
    GLuint × World :=
  let ret := env.glGetUniformLocation program name
  (toGLuint ret, w.call (.glGetUniformLocation program name ret))

/-- Body of the loop of `render` (lines 69-128) for the matrices `projection` and `view`
obtained from the camera before the loop. -/
def renderBody (env : Platform) (projection view : Mat4) (i : Nat) (w : World) : World :=
  let obj := w.pass.object i
  let w := w.call (.glUseProgram obj.shaderID)
  let (modelMatUniform, w) := getUniformLocation env w obj.shaderID "model"
  let (viewMatUniform, w) := getUniformLocation env w obj.shaderID "view"
  let (projectionMatUniform, w) := getUniformLocation env w obj.shaderID "projection"
  let (normalMatUniform, w) := getUniformLocation env w obj.shaderID "normalMat"
  let w := w.call (.glUniformMatrix4fv modelMatUniform 1 GL_FALSE w.pass.modelMat)
  let w := w.call (.glUniformMatrix4fv viewMatUniform 1 GL_FALSE view)
  let w := w.call (.glUniformMatrix4fv projectionMatUniform 1 GL_FALSE projection)
  let w := w.call (.glUniformMatrix4fv normalMatUniform 1 GL_FALSE w.pass.normalMat)
  let (camPosUniform, w) := getUniformLocation env w obj.shaderID "camPos"
  let w := w.call (.glUniform3f camPosUniform w.pass.camera.camera_position.x
    w.pass.camera.camera_position.y w.pass.camera.camera_position.z)
  let (lightPosUniform, w) := getUniformLocation env w obj.shaderID "lightPos"
  let w := w.call (.glUniform3f lightPosUniform w.pass.lightPos.x w.pass.lightPos.y
    w.pass.lightPos.z)
  let (lightIntensityUniform, w) := getUniformLocation env w obj.shaderID "lightIntensity"
  let w := w.call (.glUniform3f lightIntensityUniform w.pass.lightIntensity.x
    w.pass.lightIntensity.y w.pass.lightIntensity.z)
  let w :=
    if obj.shaderIdx = env.DIFFUSE_SHADER_IDX then
      let (albedoUniform, w) := getUniformLocation env w obj.shaderID "albedo"
      w.call (.glUniform3f albedoUniform obj.albedo.x obj.albedo.y obj.albedo.z)
    else if obj.shaderIdx = env.PHONG_SHADER_IDX then
      let (rho_dUniform, w) := getUniformLocation env w obj.shaderID "rho_d"
      let w := w.call (.glUniform3f rho_dUniform obj.rho_d.x obj.rho_d.y obj.rho_d.z)
      let (rho_sUniform, w) := getUniformLocation env w obj.shaderID "rho_s"
      let w := w.call (.glUniform3f rho_sUniform obj.rho_s.x obj.rho_s.y obj.rho_s.z)
      let (exponentUniform, w) := getUniformLocation env w obj.shaderID "exponent"
      w.call (.glUniform1f exponentUniform obj.exponent)
    else w
  let w := w.call (.glBindVertexArray obj.vao)
  let w := w.call (.glDrawArrays GL_TRIANGLES 0 obj.nVerts)
  w.call (.glBindVertexArray 0)

/-- Method `SimplePass::render()`: one frame. The local `model` filled by `GetMatricies` is
not used afterwards; the model matrix that is bound is the member `modelMat`. -/
def SimplePass.render (env : Platform) (p : SimplePass) : World :=
  let w : World := ⟨p, []⟩
  let w := w.call (.glClearColor 0 0 0 1)
  let w := w.call (.glClear (GL_COLOR_BUFFER_BIT ||| GL_DEPTH_BUFFER_BIT))
  let w := w.call (.glEnable GL_DEPTH_TEST)
  let w := w.call (.glEnable GL_FRAMEBUFFER_SRGB)
  let w : World := { w with pass := { w.pass with camera := env.cameraUpdate w.pass.camera } }
  let w := w.call .cameraUpdate
  let m := env.cameraGetMatricies w.pass.camera
  let projection := m.1
  let view := m.2.1
  let w := w.call .cameraGetMatricies
  let w := forLoop (fun v => v.pass.objects.length) (renderBody env projection view)
    w.pass.objects.length 0 w
  ⟨env.baseRender w.pass, w.log ++ [.baseRender]⟩

/-! ## Reading a log of calls

The properties of `render`, `cleanUp` and `init` are stated on what an observer of the call
log sees: the draw calls with the state they were issued in, the handles released, the
helpers invoked. -/

/-- Value of a uniform as passed to the driver. -/
inductive UniformValue where
  | mat4 (count : Int) (transpose : Nat) (value : Mat4)
  | vec3 (v0 v1 v2 : ℚ)
  | float (v0 : ℚ)
  deriving DecidableEq, Repr

/-- Location obtained from `glGetUniformLocation(program, name)` and not yet used. -/
structure Token where
  location : GLuint
  program : GLuint
  name : String
  deriving DecidableEq, Repr

/-- One `glUniform*` call: the program in use when it was made, the lookup
`(program, name)` its location came from when there is one, and the value. -/
structure Binding where
  active : Option GLuint
  source : Option (GLuint × String)
  value : UniformValue
  deriving DecidableEq, Repr

/-- One `glDrawArrays` call with the state it was issued in: the program in use, the vertex
array bound, and the uniform bindings made since the previous draw. -/
structure DrawRecord where
  mode : Nat
  first : Int
  count : Int
  program : Option GLuint
  vao : Option GLuint
  bindings : List Binding
  deriving DecidableEq, Repr

/-- Observer state: program in use and vertex array bound (unknown before the first
`glUseProgram` and `glBindVertexArray`), looked-up locations not yet used, bindings since
the last draw, and the draws so far. -/
structure Tracker where
  program : Option GLuint
  vao : Option GLuint
  tokens : List Token
  bindings : List Binding
  draws : List DrawRecord
  deriving DecidableEq, Repr

/-- Take the oldest unused token with the given location out of the list. -/
def takeToken (location : GLuint) : List Token → Option Token × List Token
  | [] => (none, [])
  | t :: ts =>
    if t.location = location then (some t, ts)
    else ((takeToken location ts).1, t :: (takeToken location ts).2)

/-- Record a `glUniform*` call at `location`: it uses up the oldest token with that
location. -/
def Tracker.bind (t : Tracker) (location : GLuint) (value : UniformValue) : Tracker :=
  let r := takeToken location t.tokens
  { t with
    tokens := r.2
    bindings := t.bindings ++ [⟨t.program, r.1.map (fun k => (k.program, k.name)), value⟩] }

/-- Effect of one call on the observer state. -/
def Tracker.step (t : Tracker) : Call → Tracker
  | .glUseProgram program => { t with program := some program }
  | .glBindVertexArray array => { t with vao := some array }
  | .glGetUniformLocation program name ret =>
    { t with tokens := t.tokens ++ [⟨toGLuint ret, program, name⟩] }
  | .glUniformMatrix4fv location count transpose value =>
    t.bind location (.mat4 count transpose value)
  | .glUniform3f location v0 v1 v2 => t.bind location (.vec3 v0 v1 v2)
  | .glUniform1f location v0 => t.bind location (.float v0)
  | .glDrawArrays mode first count =>
    { t with
      bindings := []
      draws := t.draws ++ [⟨mode, first, count, t.program, t.vao, t.bindings⟩] }
  | _ => t

/-- Observer state before the first call of a frame. -/
def Tracker.start : Tracker := ⟨none, none, [], [], []⟩

/-- Draw calls of a log, in order, each with the state it was issued in. -/
def frameDraws (log : List Call) : List DrawRecord := (log.foldl Tracker.step Tracker.start).draws

/-- Names of the material uniforms of the two shading models. -/
def materialNames : List String := ["albedo", "rho_d", "rho_s", "exponent"]

/-- Whether a binding is one of a material uniform. -/
def Binding.isMaterial (b : Binding) : Bool :=
  match b.source with
  | some (_, name) => materialNames.contains name
  | none => false

/-- Bindings of material uniforms made for a draw. -/
def DrawRecord.materialBindings (d : DrawRecord) : List Binding :=
  d.bindings.filter Binding.isMaterial

/-- Bindings made for a draw that are not of a material uniform. -/
def DrawRecord.frameBindings (d : DrawRecord) : List Binding :=
  d.bindings.filter (fun b => !b.isMaterial)

/-- Whether every `glDrawArrays` of the log is directly followed by `glBindVertexArray(0)`. -/
def unbindsAfterDraw : List Call → Bool
  | [] => true
  | .glDrawArrays _ _ _ :: rest =>
    (match rest with
      | .glBindVertexArray 0 :: _ => true
      | _ => false) && unbindsAfterDraw rest
  | _ :: rest => unbindsAfterDraw rest

/-- Whether a call is a `glDrawArrays`. -/
def Call.isDraw : Call → Bool
  | .glDrawArrays _ _ _ => true
  | _ => false

/-- Whether a call is one on the camera. -/
def Call.isCamera : Call → Bool
  | .cameraUpdate => true
  | .cameraGetMatricies => true
  | _ => false

/-- Live buffer and vertex-array handles of the driver. -/
structure Handles where
  buffers : List GLuint
  arrays : List GLuint
  deriving DecidableEq, Repr

/-- Effect of one call on the live handles: a delete call releases the handle it names. -/
def Handles.step (h : Handles) : Call → Handles
  | .glDeleteBuffers _ buffer => { h with buffers := h.buffers.filter (fun b => b ≠ buffer) }
  | .glDeleteVertexArrays _ array => { h with arrays := h.arrays.filter (fun a => a ≠ array) }
  | _ => h

/-- The calls of `init` that build geometry or assign a shader, in order. -/
def geometryCalls (log : List Call) : List Call :=
  log.filter (fun c => match c with
    | .buildVBO _ => true
    | .buildVAO _ => true
    | .assignShader _ _ => true
    | _ => false)

/-- Number of `compileProgram` calls in a log. -/
def programsCompiled (log : List Call) : Nat :=
  log.countP (fun c => match c with
    | .compileProgram _ _ _ => true
    | _ => false)

/-- The draw that one iteration of the loop of `render` is expected to record for a drawable
record, given the pass state `q` during the loop and the matrices obtained from the camera:
a triangle list from vertex 0 over `nVerts` vertices, under the program and vertex array of
the record, with the seven per-frame bindings followed by the material bindings of its
shading model. -/
def frameDraw (env : Platform) (projection view : Mat4) (q : SimplePass) (obj : GLObject) :
    DrawRecord :=
  let uni (name : String) (value : UniformValue) : Binding :=
    ⟨some obj.shaderID, some (obj.shaderID, name), value⟩
  { mode := GL_TRIANGLES
    first := 0
    count := obj.nVerts
    program := some obj.shaderID
    vao := some obj.vao
    bindings :=
      [ uni "model" (.mat4 1 GL_FALSE q.modelMat),
        uni "view" (.mat4 1 GL_FALSE view),
        uni "projection" (.mat4 1 GL_FALSE projection),
        uni "normalMat" (.mat4 1 GL_FALSE q.normalMat),
        uni "camPos" (.vec3 q.camera.camera_position.x q.camera.camera_position.y
          q.camera.camera_position.z),
        uni "lightPos" (.vec3 q.lightPos.x q.lightPos.y q.lightPos.z),
        uni "lightIntensity" (.vec3 q.lightIntensity.x q.lightIntensity.y q.lightIntensity.z) ]
      ++ (if obj.shaderIdx = env.DIFFUSE_SHADER_IDX then
            [uni "albedo" (.vec3 obj.albedo.x obj.albedo.y obj.albedo.z)]
          else if obj.shaderIdx = env.PHONG_SHADER_IDX then
            [ uni "rho_d" (.vec3 obj.rho_d.x obj.rho_d.y obj.rho_d.z),
              uni "rho_s" (.vec3 obj.rho_s.x obj.rho_s.y obj.rho_s.z),
              uni "exponent" (.float obj.exponent) ]
          else []) }

/-- Pass state during the loop of `render` started on `p`: the camera has been updated. -/
def duringFrame (env : Platform) (p : SimplePass) : SimplePass :=
  { p with camera := env.cameraUpdate p.camera }

/-- The draw expected for a record in a frame rendered from pass state `p`. -/
def expectedDraw (env : Platform) (p : SimplePass) (obj : GLObject) : DrawRecord :=
  frameDraw env (env.cameraGetMatricies (env.cameraUpdate p.camera)).1
    (env.cameraGetMatricies (env.cameraUpdate p.camera)).2.1 (duringFrame env p) obj

/-- The material calls of one iteration of the loop of `render`, as a list. -/
def materialCalls (env : Platform) (obj : GLObject) : List Call :=
  let loc (name : String) : GLuint := toGLuint (env.glGetUniformLocation obj.shaderID name)
  let look (name : String) : Call :=
    .glGetUniformLocation obj.shaderID name (env.glGetUniformLocation obj.shaderID name)
  if obj.shaderIdx = env.DIFFUSE_SHADER_IDX then
    [look "albedo", .glUniform3f (loc "albedo") obj.albedo.x obj.albedo.y obj.albedo.z]
  else if obj.shaderIdx = env.PHONG_SHADER_IDX then
    [ look "rho_d", .glUniform3f (loc "rho_d") obj.rho_d.x obj.rho_d.y obj.rho_d.z,
      look "rho_s", .glUniform3f (loc "rho_s") obj.rho_s.x obj.rho_s.y obj.rho_s.z,
      look "exponent", .glUniform1f (loc "exponent") obj.exponent ]
  else []

/-- The calls of one iteration of the loop of `render`, as a list. -/
def objectCalls (env : Platform) (projection view : Mat4) (q : SimplePass) (obj : GLObject) :
    List Call :=
  let loc (name : String) : GLuint := toGLuint (env.glGetUniformLocation obj.shaderID name)
  let look (name : String) : Call :=
    .glGetUniformLocation obj.shaderID name (env.glGetUniformLocation obj.shaderID name)
  [ .glUseProgram obj.shaderID,
    look "model", look "view", look "projection", look "normalMat",
    .glUniformMatrix4fv (loc "model") 1 GL_FALSE q.modelMat,
    .glUniformMatrix4fv (loc "view") 1 GL_FALSE view,
    .glUniformMatrix4fv (loc "projection") 1 GL_FALSE projection,
    .glUniformMatrix4fv (loc "normalMat") 1 GL_FALSE q.normalMat,
    look "camPos",
    .glUniform3f (loc "camPos") q.camera.camera_position.x q.camera.camera_position.y
      q.camera.camera_position.z,
    look "lightPos",
    .glUniform3f (loc "lightPos") q.lightPos.x q.lightPos.y q.lightPos.z,
    look "lightIntensity",
    .glUniform3f (loc "lightIntensity") q.lightIntensity.x q.lightIntensity.y
      q.lightIntensity.z ]
  ++ materialCalls env obj
  ++ [ .glBindVertexArray obj.vao, .glDrawArrays GL_TRIANGLES 0 obj.nVerts,
       .glBindVertexArray 0 ]

/-- The helper calls of iteration `i` of the second loop of `init`, as a list. -/
def buildCalls (i : Nat) : List Call := [.buildVBO i, .buildVAO i, .assignShader i i]

/-- Record `obj` is what iteration `i` of the second loop of `init` leaves in `objects[i]`:
the result of `assignShader` on shape `i` and the material list of the scene, applied to the
record that `buildVAO(i)` produced from the one `buildVBO(i)` had produced; `q₁`, `q₂`, `q₃`
are the member states the three helpers ran in. -/
def BuiltFromShape (env : Platform) (scene : Scene) (i : Nat) (obj : GLObject) : Prop :=
  ∃ q₁ q₂ q₃ : SimplePass,
    q₂.objects[i]? = some (env.buildVBO q₁ scene i) ∧
    q₃.objects[i]? = some (env.buildVAO q₂ scene i) ∧
    obj = env.assignShader q₃ (env.buildVAO q₂ scene i) (scene.shapes.getD i default)
      scene.bsdfs

/-- The calls before the loop of `render`. -/
def framePrologue : List Call :=
  [ .glClearColor 0 0 0 1, .glClear (GL_COLOR_BUFFER_BIT ||| GL_DEPTH_BUFFER_BIT),
    .glEnable GL_DEPTH_TEST, .glEnable GL_FRAMEBUFFER_SRGB, .cameraUpdate,
    .cameraGetMatricies ]

/-! ## Concrete inputs -/

/-- A platform with two shading models, `diffuse` at index 0 and `phong` at index 1, on which
every helper succeeds. -/
def demoPlatform : Platform where
  N_SHADERS := 2
  shadersName := fun i => if i = 0 then "diffuse" else "phong"
  DIFFUSE_SHADER_IDX := 0
  PHONG_SHADER_IDX := 1
  baseInit := fun _ p => (true, p)
  baseCleanUp := fun p => p
  baseRender := fun p => p
  compileShader := fun log _ _ => log.length + 1
  compileProgram := fun log _ _ => log.length + 1
  buildVBO := fun p _ i => { p.object i with vbo := 100 + i, nVerts := 3 }
  buildVAO := fun p _ i => { p.object i with vao := 200 + i }
  assignShader := fun p obj shape bsdfs =>
    match bsdfs.getD (shape.material_ids.headD 0).toNat default with
    | .diffuse a => { obj with shaderID := p.shaders 0, shaderIdx := 0, albedo := a }
    | .phong d k e =>
      { obj with shaderID := p.shaders 1, shaderIdx := 1, rho_d := d, rho_s := k, exponent := e }
  glGetUniformLocation := fun _ name => if name = "exponent" then -1 else name.length
  cameraUpdate := fun c => { c with pose := 1 :: c.pose }
  cameraGetMatricies := fun c => (⟨c.pose⟩, ⟨[1]⟩, ⟨[2]⟩)

/-- A platform on which `RenderPass::init` reports failure and the compiler returns the
null handle. -/
def failingPlatform : Platform :=
  { demoPlatform with
    baseInit := fun _ p => (false, p)
    compileShader := fun _ _ _ => 0
    compileProgram := fun _ _ _ => 0 }

/-- A pass holding one diffuse and one Phong record. -/
def demoPass : SimplePass where
  objects :=
    [ ⟨201, 101, 3, 11, 0, ⟨4/5, 1/5, 1/5⟩, ⟨0, 0, 0⟩, ⟨0, 0, 0⟩, 0⟩,
      ⟨202, 102, 6, 12, 1, ⟨0, 0, 0⟩, ⟨1/2, 1/2, 1/2⟩, ⟨1/4, 1/4, 1/4⟩, 32⟩ ]
  shaders := fun i => 11 + i
  modelMat := ⟨[1, 0, 0, 0, 0, 1, 0, 0, 0, 0, 1, 0, 0, 0, 0, 1]⟩
  normalMat := ⟨[1, 0, 0, 0, 0, 1, 0, 0, 0, 0, 1, 0, 0, 0, 0, 1]⟩
  lightPos := ⟨0, 4, 0⟩
  lightIntensity := ⟨10, 10, 10⟩
  camera := ⟨⟨0, 0, 5⟩, []⟩

/-- A pass before `init`: no record, no program. -/
def freshPass : SimplePass :=
  { demoPass with objects := [], shaders := fun _ => 0 }

/-- A scene with two shapes, the first diffuse and the second Phong. -/
def demoScene : Scene :=
  ⟨[⟨"wall", [0]⟩, ⟨"ball", [1]⟩],
    [BSDF.diffuse ⟨4/5, 1/5, 1/5⟩, BSDF.phong ⟨1/2, 1/2, 1/2⟩ ⟨1/4, 1/4, 1/4⟩ 32], emptyBVH⟩

/-! ## Facts about the normal integrator -/

theorem absf_eq_abs (x : ℚ) : absf x = |x| := by
  unfold absf
  split
  · rename_i h; exact (abs_of_nonneg h).symm
  · rename_i h; exact (abs_of_neg (lt_of_not_le h)).symm

theorem render_ctx (ctx : RenderCtx) (ray : Ray) :
    (NormalIntegrator.render ctx ray).2 = ctx := by
  simp only [NormalIntegrator.render]
  split <;> rfl

theorem render_hit (ctx : RenderCtx) (ray : Ray)
    (h : (ctx.scene.bvh.intersect ray).1 = true) :
    (NormalIntegrator.render ctx ray).1
      = V3f.abs (ctx.scene.bvh.intersect ray).2.frameNs.n := by
  simp [NormalIntegrator.render, h]

theorem render_miss (ctx : RenderCtx) (ray : Ray)
    (h : (ctx.scene.bvh.intersect ray).1 = false) :
    (NormalIntegrator.render ctx ray).1 = ⟨0, 0, 0⟩ := by
  simp [NormalIntegrator.render, h]

/-- Claim C1: whenever the spatial-index query reports no hit, `render` returns exactly
`(0,0,0)`, whatever the scene, ray and sampler; in particular the same ray on the empty
scene yields `(0,0,0)`. -/
theorem normal_render_miss_is_zero (scene : Scene) (ray : Ray) (sampler : Sampler)
    (h : (scene.bvh.intersect ray).1 = false) :
    renderColor scene ray sampler = ⟨0, 0, 0⟩ ∧
    renderColor emptyScene ray sampler = ⟨0, 0, 0⟩ :=
  ⟨render_miss ⟨scene, sampler⟩ ray h, render_miss ⟨emptyScene, sampler⟩ ray rfl⟩

theorem normal_render_miss_is_zero_witness :
    (emptyScene.bvh.intersect sampleRay).1 = false ∧
    renderColor emptyScene sampleRay ⟨7⟩ = ⟨0, 0, 0⟩ :=
  ⟨rfl, (normal_render_miss_is_zero emptyScene sampleRay ⟨7⟩ rfl).1⟩

theorem renderAll_ctx (ctx : RenderCtx) (rays : List Ray) : (renderAll ctx rays).2 = ctx := by
  induction rays generalizing ctx with
  | nil => rfl
  | cons ray rest ih =>
    simp only [renderAll]
    rw [ih, render_ctx]

theorem render_sampler_irrelevant (scene : Scene) (ray : Ray) (s₁ s₂ : Sampler) :
    renderColor scene ray s₁ = renderColor scene ray s₂ := by
  simp only [renderColor, NormalIntegrator.render]
  split <;> rfl

theorem renderAll_colors (ctx : RenderCtx) (rays : List Ray) :
    (renderAll ctx rays).1 = rays.map (fun r => renderColor ctx.scene r ctx.sampler) := by
  induction rays generalizing ctx with
  | nil => rfl
  | cons ray rest ih =>
    simp only [renderAll, List.map_cons]
    rw [ih, render_ctx]
    rfl

/-- Claim C2: on a hit with interaction `info`, `render` returns `(|n.x|, |n.y|, |n.z|)` for
the shading normal `n` of `info`; the result is the same for any scene whose query hits with
the same shading normal, whatever its material list and material reference, so replacing the
material list alone changes nothing; a hit with shading normal `(0,0,1)` on a shape of albedo
`(0.8,0.2,0.2)`, or of any other albedo, yields `(0,0,1)`. -/
theorem normal_render_hit_is_abs_normal (scene : Scene) (ray : Ray) (sampler : Sampler)
    (info : SurfaceInteraction) (h : scene.bvh.intersect ray = (true, info)) :
    renderColor scene ray sampler
        = ⟨|info.frameNs.n.x|, |info.frameNs.n.y|, |info.frameNs.n.z|⟩ ∧
    (∀ (other : Scene) (info₂ : SurfaceInteraction),
        other.bvh.intersect ray = (true, info₂) → info₂.frameNs.n = info.frameNs.n →
        renderColor other ray sampler = renderColor scene ray sampler) ∧
    (∀ bsdfs : List BSDF,
        renderColor ⟨scene.shapes, bsdfs, scene.bvh⟩ ray sampler
          = renderColor scene ray sampler) ∧
    (∀ albedo : V3f, renderColor (oneShapeScene ⟨0, 0, 1⟩ albedo) ray sampler = ⟨0, 0, 1⟩) ∧
    renderColor (oneShapeScene ⟨0, 0, 1⟩ ⟨4/5, 1/5, 1/5⟩) ray sampler = ⟨0, 0, 1⟩ := by
  have key : ∀ (sc : Scene) (i : SurfaceInteraction), sc.bvh.intersect ray = (true, i) →
      renderColor sc ray sampler = ⟨|i.frameNs.n.x|, |i.frameNs.n.y|, |i.frameNs.n.z|⟩ := by
    intro sc i hi
    have h1 : (sc.bvh.intersect ray).1 = true := by rw [hi]
    have h2 := render_hit ⟨sc, sampler⟩ ray h1
    simp only [renderColor]
    rw [h2]
    simp only [hi, V3f.abs, absf_eq_abs]
  have one : ∀ albedo : V3f,
      renderColor (oneShapeScene ⟨0, 0, 1⟩ albedo) ray sampler = ⟨0, 0, 1⟩ := by
    intro albedo
    rw [key (oneShapeScene ⟨0, 0, 1⟩ albedo) _ rfl]
    simp
  refine ⟨key scene info h, ?_, ?_, one, one _⟩
  · intro other info₂ h₂ hn
    rw [key other info₂ h₂, key scene info h, hn]
  · intro bsdfs
    rw [key ⟨scene.shapes, bsdfs, scene.bvh⟩ info h, key scene info h]

theorem normal_render_hit_is_abs_normal_witness :
    (oneShapeScene ⟨0, 0, -1⟩ ⟨4/5, 1/5, 1/5⟩).bvh.intersect sampleRay
        = (true, ⟨sampleRay.o, 1, ⟨⟨1, 0, 0⟩, ⟨0, 1, 0⟩, ⟨0, 0, -1⟩⟩, 0⟩) ∧
    renderColor (oneShapeScene ⟨0, 0, -1⟩ ⟨4/5, 1/5, 1/5⟩) sampleRay ⟨0⟩
        = ⟨|(0 : ℚ)|, |(0 : ℚ)|, |(-1 : ℚ)|⟩ :=
  ⟨rfl, (normal_render_hit_is_abs_normal (oneShapeScene ⟨0, 0, -1⟩ ⟨4/5, 1/5, 1/5⟩)
    sampleRay ⟨0⟩ ⟨sampleRay.o, 1, ⟨⟨1, 0, 0⟩, ⟨0, 1, 0⟩, ⟨0, 0, -1⟩⟩, 0⟩ rfl).1⟩

/-- Claim C4: `render` is a function of the scene and the ray alone: the colour is the same
for any two samplers, a call returns the scene and the sampler exactly as it received them,
and after any sequence of earlier calls the context is still the initial one and a further
call on the ray returns the colour of a first call. -/
theorem normal_render_deterministic_and_pure (scene : Scene) (ray : Ray)
    (s₁ s₂ : Sampler) (before : List Ray) :
    renderColor scene ray s₁ = renderColor scene ray s₂ ∧
    (NormalIntegrator.render ⟨scene, s₁⟩ ray).2 = ⟨scene, s₁⟩ ∧
    (renderAll ⟨scene, s₁⟩ before).2 = ⟨scene, s₁⟩ ∧
    (NormalIntegrator.render (renderAll ⟨scene, s₁⟩ before).2 ray).1
        = renderColor scene ray s₂ ∧
    (∀ n : Nat, (renderAll ⟨scene, s₁⟩ (List.replicate n ray)).1
        = List.replicate n (renderColor scene ray s₂)) := by
  refine ⟨render_sampler_irrelevant scene ray s₁ s₂, render_ctx _ _, renderAll_ctx _ _, ?_, ?_⟩
  · rw [renderAll_ctx]
    exact render_sampler_irrelevant scene ray s₁ s₂
  · intro n
    rw [renderAll_colors, List.map_replicate]
    exact congrArg _ (render_sampler_irrelevant scene ray s₁ s₂)

/-! ## Facts about the loops -/

theorem forLoop_eq_foldl {σ : Type} (bound : σ → Nat) (body : Nat → σ → σ)
    (hb : ∀ i s, bound (body i s) = bound s) :
    ∀ (fuel i : Nat) (s : σ), bound s - i ≤ fuel →
      forLoop bound body fuel i s
        = (List.range' i (bound s - i)).foldl (fun acc j => body j acc) s := by
  intro fuel
  induction fuel with
  | zero =>
    intro i s h
    have h0 : bound s - i = 0 := by omega
    simp [forLoop, h0]
  | succ fuel ih =>
    intro i s h
    by_cases hi : i < bound s
    · have hk : bound s - i = (bound s - (i + 1)) + 1 := by omega
      have hfuel : bound (body i s) - (i + 1) ≤ fuel := by rw [hb]; omega
      simp only [forLoop, if_pos hi]
      rw [ih (i + 1) (body i s) hfuel, hb, hk, List.range'_succ, List.foldl_cons]
    · have h0 : bound s - i = 0 := by omega
      simp [forLoop, hi, h0]

theorem renderBody_eq (env : Platform) (projection view : Mat4) (i : Nat) (w : World) :
    renderBody env projection view i w
      = ⟨w.pass, w.log ++ objectCalls env projection view w.pass (w.pass.object i)⟩ := by
  by_cases h1 : (w.pass.object i).shaderIdx = env.DIFFUSE_SHADER_IDX
  · simp only [renderBody, objectCalls, materialCalls, if_pos h1]
    simp [getUniformLocation, World.call]
  · by_cases h2 : (w.pass.object i).shaderIdx = env.PHONG_SHADER_IDX
    · simp only [renderBody, objectCalls, materialCalls, if_neg h1, if_pos h2]
      simp [getUniformLocation, World.call]
    · simp only [renderBody, objectCalls, materialCalls, if_neg h1, if_neg h2]
      simp [getUniformLocation, World.call]

theorem object_getD (objs : List GLObject) (i : Nat) (h : i < objs.length) :
    objs.getD i default = objs[i] := by
  simp [List.getD, List.getElem?_eq_getElem h]

theorem foldl_logged (f : SimplePass → GLObject → List Call) (body : Nat → World → World)
    (hbody : ∀ j w, body j w = ⟨w.pass, w.log ++ f w.pass (w.pass.object j)⟩) :
    ∀ (k i : Nat) (w : World), i + k = w.pass.objects.length →
      (List.range' i k).foldl (fun acc j => body j acc) w
        = ⟨w.pass, w.log ++ (w.pass.objects.drop i).flatMap (f w.pass)⟩ := by
  intro k
  induction k with
  | zero =>
    intro i w h
    have hd : w.pass.objects.drop i = [] := List.drop_eq_nil_of_le (by omega)
    simp [hd]
  | succ k ih =>
    intro i w h
    have hi : i < w.pass.objects.length := by omega
    have hd : w.pass.objects.drop i = w.pass.objects[i] :: w.pass.objects.drop (i + 1) :=
      List.drop_eq_getElem_cons hi
    have hlen : i + 1 + k = (World.mk w.pass (w.log ++ f w.pass (w.pass.object i))).pass.objects.length := by
      show i + 1 + k = w.pass.objects.length
      omega
    rw [List.range'_succ, List.foldl_cons, hbody, ih (i + 1) _ hlen, hd]
    simp only [SimplePass.object, object_getD _ _ hi, List.flatMap_cons, List.append_assoc]

theorem loop_logged (f : SimplePass → GLObject → List Call) (body : Nat → World → World)
    (hbody : ∀ j w, body j w = ⟨w.pass, w.log ++ f w.pass (w.pass.object j)⟩)
    (fuel : Nat) (w : World) (hfuel : w.pass.objects.length ≤ fuel) :
    forLoop (fun v => v.pass.objects.length) body fuel 0 w
      = ⟨w.pass, w.log ++ w.pass.objects.flatMap (f w.pass)⟩ := by
  rw [forLoop_eq_foldl (fun v => v.pass.objects.length) body (by intro i s; rw [hbody]) fuel 0 w
    (by simpa using hfuel)]
  rw [foldl_logged f body hbody _ 0 w (by simp)]
  simp

theorem render_log (env : Platform) (p : SimplePass) :
    (SimplePass.render env p).log
      = framePrologue
        ++ p.objects.flatMap (objectCalls env (env.cameraGetMatricies (env.cameraUpdate p.camera)).1
            (env.cameraGetMatricies (env.cameraUpdate p.camera)).2.1 (duringFrame env p))
        ++ [.baseRender] := by
  have h := loop_logged
    (objectCalls env (env.cameraGetMatricies (env.cameraUpdate p.camera)).1
      (env.cameraGetMatricies (env.cameraUpdate p.camera)).2.1)
    (renderBody env (env.cameraGetMatricies (env.cameraUpdate p.camera)).1
      (env.cameraGetMatricies (env.cameraUpdate p.camera)).2.1)
    (renderBody_eq env _ _) p.objects.length ⟨duringFrame env p, framePrologue⟩ (le_refl _)
  show (forLoop (fun v => v.pass.objects.length)
      (renderBody env (env.cameraGetMatricies (env.cameraUpdate p.camera)).1
        (env.cameraGetMatricies (env.cameraUpdate p.camera)).2.1)
      p.objects.length 0 ⟨duringFrame env p, framePrologue⟩).log ++ [Call.baseRender] = _
  rw [h]
  rfl

/-! ## Facts about the observer of a frame -/

theorem track_objectCalls (env : Platform) (projection view : Mat4) (q : SimplePass)
    (obj : GLObject) (t : Tracker) (ht : t.tokens = []) (hb : t.bindings = []) :
    (objectCalls env projection view q obj).foldl Tracker.step t
      = ⟨some obj.shaderID, some 0, [], [],
          t.draws ++ [frameDraw env projection view q obj]⟩ := by
  obtain ⟨prog, vao, tokens, bindings, draws⟩ := t
  simp only at ht hb
  subst ht hb
  by_cases h1 : obj.shaderIdx = env.DIFFUSE_SHADER_IDX
  · simp only [objectCalls, materialCalls, frameDraw, if_pos h1]
    simp [Tracker.step, Tracker.bind, takeToken]
  · by_cases h2 : obj.shaderIdx = env.PHONG_SHADER_IDX
    · simp only [objectCalls, materialCalls, frameDraw, if_neg h1, if_pos h2]
      simp [Tracker.step, Tracker.bind, takeToken]
    · simp only [objectCalls, materialCalls, frameDraw, if_neg h1, if_neg h2]
      simp [Tracker.step, Tracker.bind, takeToken]

theorem track_objects (env : Platform) (projection view : Mat4) (q : SimplePass)
    (objs : List GLObject) (t : Tracker) (ht : t.tokens = []) (hb : t.bindings = []) :
    ((objs.flatMap (objectCalls env projection view q)).foldl Tracker.step t).draws
        = t.draws ++ objs.map (frameDraw env projection view q) ∧
    ((objs.flatMap (objectCalls env projection view q)).foldl Tracker.step t).tokens = [] ∧
    ((objs.flatMap (objectCalls env projection view q)).foldl Tracker.step t).bindings = [] := by
  induction objs generalizing t with
  | nil => simp [ht, hb]
  | cons obj rest ih =>
    rw [List.flatMap_cons, List.foldl_append, track_objectCalls env projection view q obj t ht hb]
    have h := ih ⟨some obj.shaderID, some 0, [], [],
      t.draws ++ [frameDraw env projection view q obj]⟩ rfl rfl
    refine ⟨?_, h.2.1, h.2.2⟩
    rw [h.1]
    simp

theorem frameDraws_render (env : Platform) (p : SimplePass) :
    frameDraws (SimplePass.render env p).log = p.objects.map (expectedDraw env p) := by
  rw [render_log]
  unfold frameDraws
  rw [List.foldl_append, List.foldl_append]
  have h0 : framePrologue.foldl Tracker.step Tracker.start = Tracker.start := rfl
  rw [h0]
  have h := (track_objects env (env.cameraGetMatricies (env.cameraUpdate p.camera)).1
    (env.cameraGetMatricies (env.cameraUpdate p.camera)).2.1 (duringFrame env p) p.objects
    Tracker.start rfl rfl).1
  simp only [List.foldl_cons, List.foldl_nil, Tracker.step]
  rw [h]
  simp [Tracker.start, expectedDraw]

theorem materialBindings_frameDraw (env : Platform) (projection view : Mat4) (q : SimplePass)
    (obj : GLObject) :
    (frameDraw env projection view q obj).materialBindings
      = if obj.shaderIdx = env.DIFFUSE_SHADER_IDX then
          [⟨some obj.shaderID, some (obj.shaderID, "albedo"),
            .vec3 obj.albedo.x obj.albedo.y obj.albedo.z⟩]
        else if obj.shaderIdx = env.PHONG_SHADER_IDX then
          [ ⟨some obj.shaderID, some (obj.shaderID, "rho_d"),
              .vec3 obj.rho_d.x obj.rho_d.y obj.rho_d.z⟩,
            ⟨some obj.shaderID, some (obj.shaderID, "rho_s"),
              .vec3 obj.rho_s.x obj.rho_s.y obj.rho_s.z⟩,
            ⟨some obj.shaderID, some (obj.shaderID, "exponent"), .float obj.exponent⟩ ]
        else [] := by
  by_cases h1 : obj.shaderIdx = env.DIFFUSE_SHADER_IDX
  · simp only [frameDraw, if_pos h1]
    simp [DrawRecord.materialBindings, Binding.isMaterial, materialNames]
  · by_cases h2 : obj.shaderIdx = env.PHONG_SHADER_IDX
    · simp only [frameDraw, if_neg h1, if_pos h2]
      simp [DrawRecord.materialBindings, Binding.isMaterial, materialNames]
    · simp only [frameDraw, if_neg h1, if_neg h2]
      simp [DrawRecord.materialBindings, Binding.isMaterial, materialNames]

theorem frameBindings_frameDraw (env : Platform) (projection view : Mat4) (q : SimplePass)
    (obj : GLObject) :
    (frameDraw env projection view q obj).frameBindings
      = [ ⟨some obj.shaderID, some (obj.shaderID, "model"), .mat4 1 GL_FALSE q.modelMat⟩,
          ⟨some obj.shaderID, some (obj.shaderID, "view"), .mat4 1 GL_FALSE view⟩,
          ⟨some obj.shaderID, some (obj.shaderID, "projection"), .mat4 1 GL_FALSE projection⟩,
          ⟨some obj.shaderID, some (obj.shaderID, "normalMat"), .mat4 1 GL_FALSE q.normalMat⟩,
          ⟨some obj.shaderID, some (obj.shaderID, "camPos"),
            .vec3 q.camera.camera_position.x q.camera.camera_position.y
              q.camera.camera_position.z⟩,
          ⟨some obj.shaderID, some (obj.shaderID, "lightPos"),
            .vec3 q.lightPos.x q.lightPos.y q.lightPos.z⟩,
          ⟨some obj.shaderID, some (obj.shaderID, "lightIntensity"),
            .vec3 q.lightIntensity.x q.lightIntensity.y q.lightIntensity.z⟩ ] := by
  by_cases h1 : obj.shaderIdx = env.DIFFUSE_SHADER_IDX
  · simp only [frameDraw, if_pos h1]
    simp [DrawRecord.frameBindings, Binding.isMaterial, materialNames]
  · by_cases h2 : obj.shaderIdx = env.PHONG_SHADER_IDX
    · simp only [frameDraw, if_neg h1, if_pos h2]
      simp [DrawRecord.frameBindings, Binding.isMaterial, materialNames]
    · simp only [frameDraw, if_neg h1, if_neg h2]
      simp [DrawRecord.frameBindings, Binding.isMaterial, materialNames]

theorem unbindsAfterDraw_objectCalls (env : Platform) (projection view : Mat4)
    (q : SimplePass) (obj : GLObject) (rest : List Call) :
    unbindsAfterDraw (objectCalls env projection view q obj ++ rest) = unbindsAfterDraw rest := by
  by_cases h1 : obj.shaderIdx = env.DIFFUSE_SHADER_IDX
  · simp only [objectCalls, materialCalls, if_pos h1]
    simp [unbindsAfterDraw]
  · by_cases h2 : obj.shaderIdx = env.PHONG_SHADER_IDX
    · simp only [objectCalls, materialCalls, if_neg h1, if_pos h2]
      simp [unbindsAfterDraw]
    · simp only [objectCalls, materialCalls, if_neg h1, if_neg h2]
      simp [unbindsAfterDraw]

theorem unbindsAfterDraw_objects (env : Platform) (projection view : Mat4) (q : SimplePass)
    (objs : List GLObject) (rest : List Call) :
    unbindsAfterDraw (objs.flatMap (objectCalls env projection view q) ++ rest)
      = unbindsAfterDraw rest := by
  induction objs with
  | nil => simp
  | cons obj more ih =>
    rw [List.flatMap_cons, List.append_assoc, unbindsAfterDraw_objectCalls, ih]

theorem countP_objectCalls (env : Platform) (projection view : Mat4) (q : SimplePass)
    (obj : GLObject) :
    (objectCalls env projection view q obj).countP Call.isDraw = 1 ∧
    (objectCalls env projection view q obj).count Call.baseRender = 0 ∧
    (objectCalls env projection view q obj).filter Call.isCamera = [] := by
  by_cases h1 : obj.shaderIdx = env.DIFFUSE_SHADER_IDX
  · simp only [objectCalls, materialCalls, if_pos h1]
    simp [Call.isDraw, Call.isCamera, List.countP_cons, List.count_cons]
  · by_cases h2 : obj.shaderIdx = env.PHONG_SHADER_IDX
    · simp only [objectCalls, materialCalls, if_neg h1, if_pos h2]
      simp [Call.isDraw, Call.isCamera, List.countP_cons, List.count_cons]
    · simp only [objectCalls, materialCalls, if_neg h1, if_neg h2]
      simp [Call.isDraw, Call.isCamera, List.countP_cons, List.count_cons]

theorem countP_objects (env : Platform) (projection view : Mat4) (q : SimplePass)
    (objs : List GLObject) :
    (objs.flatMap (objectCalls env projection view q)).countP Call.isDraw = objs.length ∧
    (objs.flatMap (objectCalls env projection view q)).count Call.baseRender = 0 ∧
    (objs.flatMap (objectCalls env projection view q)).filter Call.isCamera = [] := by
  induction objs with
  | nil => simp
  | cons obj more ih =>
    have h := countP_objectCalls env projection view q obj
    rw [List.flatMap_cons, List.countP_append, List.count_append, List.filter_append,
      h.1, h.2.1, h.2.2, ih.1, ih.2.1, ih.2.2]
    simp [Nat.add_comm]

/-! ## The claims on `SimplePass::render` -/

/-- Claim C7: in one `render` call, a record whose variant index is `DIFFUSE_SHADER_IDX` gets
exactly one material uniform bound, `albedo` with the albedo of the record, and none of
`rho_d`, `rho_s`, `exponent`; a record whose variant index is `PHONG_SHADER_IDX` gets
exactly the three material uniforms `rho_d`, `rho_s`, `exponent` with the values of the
record, and not `albedo`; each is looked up on the program of the record and bound while
that program is in use. The two variant indices are distinct constants. -/
theorem render_material_uniforms_by_variant (env : Platform) (p : SimplePass)
    (hidx : env.DIFFUSE_SHADER_IDX ≠ env.PHONG_SHADER_IDX) (i : Nat)
    (hi : i < p.objects.length) :
    (p.objects[i].shaderIdx = env.DIFFUSE_SHADER_IDX →
      (frameDraws (SimplePass.render env p).log)[i]?.map DrawRecord.materialBindings
        = some [⟨some p.objects[i].shaderID, some (p.objects[i].shaderID, "albedo"),
            .vec3 p.objects[i].albedo.x p.objects[i].albedo.y p.objects[i].albedo.z⟩]) ∧
    (p.objects[i].shaderIdx = env.PHONG_SHADER_IDX →
      (frameDraws (SimplePass.render env p).log)[i]?.map DrawRecord.materialBindings
        = some
          [ ⟨some p.objects[i].shaderID, some (p.objects[i].shaderID, "rho_d"),
              .vec3 p.objects[i].rho_d.x p.objects[i].rho_d.y p.objects[i].rho_d.z⟩,
            ⟨some p.objects[i].shaderID, some (p.objects[i].shaderID, "rho_s"),
              .vec3 p.objects[i].rho_s.x p.objects[i].rho_s.y p.objects[i].rho_s.z⟩,
            ⟨some p.objects[i].shaderID, some (p.objects[i].shaderID, "exponent"),
              .float p.objects[i].exponent⟩ ]) := by
  have hd : (frameDraws (SimplePass.render env p).log)[i]?.map DrawRecord.materialBindings
      = some (expectedDraw env p p.objects[i]).materialBindings := by
    rw [frameDraws_render, List.getElem?_map, List.getElem?_eq_getElem hi]
    rfl
  rw [hd]
  unfold expectedDraw
  rw [materialBindings_frameDraw]
  constructor
  · intro h
    rw [if_pos h]
  · intro h
    have h1 : ¬ p.objects[i].shaderIdx = env.DIFFUSE_SHADER_IDX := by
      rw [h]; exact fun e => hidx e.symm
    rw [if_neg h1, if_pos h]

theorem render_material_uniforms_by_variant_witness :
    (demoPlatform.DIFFUSE_SHADER_IDX ≠ demoPlatform.PHONG_SHADER_IDX) ∧
    1 < demoPass.objects.length ∧
    (frameDraws (SimplePass.render demoPlatform demoPass).log)[1]?.map
        DrawRecord.materialBindings
      = some
        [ ⟨some 12, some (12, "rho_d"), .vec3 (1/2) (1/2) (1/2)⟩,
          ⟨some 12, some (12, "rho_s"), .vec3 (1/4) (1/4) (1/4)⟩,
          ⟨some 12, some (12, "exponent"), .float 32⟩ ] :=
  ⟨by decide, by decide,
    (render_material_uniforms_by_variant demoPlatform demoPass (by decide) 1 (by decide)).2 rfl⟩

/-- Claim C8: one `render` call issues exactly one draw per drawable record, in index
order: the draw of record `i` is a `GL_TRIANGLES` draw from vertex 0 over `objects[i].nVerts`
vertices, with `objects[i].shaderID` in use and `objects[i].vao` bound; every draw is directly
followed by `glBindVertexArray(0)`; the number of draws is the number of records, none for a
pass without records; `RenderPass::render` is called once, as the last call of the frame. -/
theorem render_one_draw_per_record (env : Platform) (p : SimplePass) :
    (frameDraws (SimplePass.render env p).log).map
        (fun d => (d.mode, d.first, d.count, d.program, d.vao))
      = p.objects.map (fun o => (GL_TRIANGLES, (0 : Int), o.nVerts, some o.shaderID, some o.vao)) ∧
    (frameDraws (SimplePass.render env p).log).length = p.objects.length ∧
    (SimplePass.render env p).log.countP Call.isDraw = p.objects.length ∧
    unbindsAfterDraw (SimplePass.render env p).log = true ∧
    frameDraws (SimplePass.render env { p with objects := [] }).log = [] ∧
    (SimplePass.render env { p with objects := [] }).log.countP Call.isDraw = 0 ∧
    (SimplePass.render env p).log.count Call.baseRender = 1 ∧
    (SimplePass.render env p).log.getLast? = some Call.baseRender := by
  have hcount : ∀ q : SimplePass,
      (SimplePass.render env q).log.countP Call.isDraw = q.objects.length := by
    intro q
    rw [render_log, List.countP_append, List.countP_append, (countP_objects env _ _ _ _).1]
    simp [framePrologue, Call.isDraw, List.countP_cons]
  refine ⟨?_, ?_, hcount p, ?_, ?_, hcount _, ?_, ?_⟩
  · rw [frameDraws_render, List.map_map]
    rfl
  · rw [frameDraws_render, List.length_map]
  · rw [render_log, List.append_assoc]
    simp only [framePrologue, List.cons_append, unbindsAfterDraw]
    change unbindsAfterDraw (p.objects.flatMap _ ++ [Call.baseRender]) = true
    rw [unbindsAfterDraw_objects]
    rfl
  · rw [frameDraws_render]
    rfl
  · rw [render_log, List.count_append, List.count_append, (countP_objects env _ _ _ _).2.1]
    simp [framePrologue, List.count_cons]
  · rw [render_log]
    simp

/-- Claim C10: in one `render` call every drawable record gets the same seven per-frame
uniforms bound, each looked up on the program of the record and bound while that program
is in use: `model`, `view`, `projection`, `normalMat`, `camPos`, `lightPos`,
`lightIntensity`. The values do not depend on the record: the model and normal matrices are
the members `modelMat` and `normalMat` of the pass, view and projection are the ones
`GetMatricies` returns after the `Update` of this frame, the camera position is the one
after that `Update`, the light position and intensity are the members `lightPos` and
`lightIntensity`. The camera is updated once per frame, before the matrices are read. -/
theorem render_frame_uniforms_same_for_all (env : Platform) (p : SimplePass) :
    (frameDraws (SimplePass.render env p).log).map DrawRecord.frameBindings
      = p.objects.map (fun o =>
        [ (⟨some o.shaderID, some (o.shaderID, "model"), .mat4 1 GL_FALSE p.modelMat⟩ : Binding),
          ⟨some o.shaderID, some (o.shaderID, "view"),
            .mat4 1 GL_FALSE (env.cameraGetMatricies (env.cameraUpdate p.camera)).2.1⟩,
          ⟨some o.shaderID, some (o.shaderID, "projection"),
            .mat4 1 GL_FALSE (env.cameraGetMatricies (env.cameraUpdate p.camera)).1⟩,
          ⟨some o.shaderID, some (o.shaderID, "normalMat"), .mat4 1 GL_FALSE p.normalMat⟩,
          ⟨some o.shaderID, some (o.shaderID, "camPos"),
            .vec3 (env.cameraUpdate p.camera).camera_position.x
              (env.cameraUpdate p.camera).camera_position.y
              (env.cameraUpdate p.camera).camera_position.z⟩,
          ⟨some o.shaderID, some (o.shaderID, "lightPos"),
            .vec3 p.lightPos.x p.lightPos.y p.lightPos.z⟩,
          ⟨some o.shaderID, some (o.shaderID, "lightIntensity"),
            .vec3 p.lightIntensity.x p.lightIntensity.y p.lightIntensity.z⟩ ]) ∧
    (frameDraws (SimplePass.render env p).log).map
        (fun d => d.frameBindings.map (fun b => b.value))
      = List.replicate p.objects.length
        [ UniformValue.mat4 1 GL_FALSE p.modelMat,
          .mat4 1 GL_FALSE (env.cameraGetMatricies (env.cameraUpdate p.camera)).2.1,
          .mat4 1 GL_FALSE (env.cameraGetMatricies (env.cameraUpdate p.camera)).1,
          .mat4 1 GL_FALSE p.normalMat,
          .vec3 (env.cameraUpdate p.camera).camera_position.x
            (env.cameraUpdate p.camera).camera_position.y
            (env.cameraUpdate p.camera).camera_position.z,
          .vec3 p.lightPos.x p.lightPos.y p.lightPos.z,
          .vec3 p.lightIntensity.x p.lightIntensity.y p.lightIntensity.z ] ∧
    (SimplePass.render env p).log.filter Call.isCamera
      = [Call.cameraUpdate, Call.cameraGetMatricies] := by
  refine ⟨?_, ?_, ?_⟩
  · rw [frameDraws_render, List.map_map]
    apply List.map_congr_left
    intro o _
    simp only [Function.comp, expectedDraw, frameBindings_frameDraw, duringFrame]
  · rw [frameDraws_render, List.map_map, List.eq_replicate_iff]
    refine ⟨by simp, ?_⟩
    intro vs hvs
    obtain ⟨o, _, rfl⟩ := List.mem_map.mp hvs
    simp only [Function.comp, expectedDraw, frameBindings_frameDraw, duringFrame, List.map_cons,
      List.map_nil]
  · rw [render_log, List.filter_append, List.filter_append, (countP_objects env _ _ _ _).2.2]
    rfl

/-! ## Facts about `SimplePass::cleanUp` -/

theorem initShaderBody_facts (env : Platform) (i : Nat) (w : World) :
    (initShaderBody env i w).pass.objects = w.pass.objects ∧
    programsCompiled (initShaderBody env i w).log = programsCompiled w.log + 1 ∧
    geometryCalls (initShaderBody env i w).log = geometryCalls w.log := by
  simp [initShaderBody, World.call, World.setShader, programsCompiled, geometryCalls,
    List.countP_append, List.filter_append, List.countP_cons]

theorem shaderFold_facts (env : Platform) :
    ∀ (k i : Nat) (w : World),
      ((List.range' i k).foldl (fun acc j => initShaderBody env j acc) w).pass.objects
          = w.pass.objects ∧
      programsCompiled ((List.range' i k).foldl (fun acc j => initShaderBody env j acc) w).log
          = programsCompiled w.log + k ∧
      geometryCalls ((List.range' i k).foldl (fun acc j => initShaderBody env j acc) w).log
          = geometryCalls w.log := by
  intro k
  induction k with
  | zero => intro i w; simp
  | succ k ih =>
    intro i w
    obtain ⟨h1, h2, h3⟩ := initShaderBody_facts env i w
    obtain ⟨g1, g2, g3⟩ := ih (i + 1) (initShaderBody env i w)
    rw [List.range'_succ, List.foldl_cons]
    refine ⟨by rw [g1, h1], by rw [g2, h2]; omega, by rw [g3, h3]⟩

theorem initObjectBody_facts (env : Platform) (scene : Scene) (i : Nat) (w : World) :
    (initObjectBody env scene i w).pass.objects.length = w.pass.objects.length ∧
    geometryCalls (initObjectBody env scene i w).log = geometryCalls w.log ++ buildCalls i ∧
    programsCompiled (initObjectBody env scene i w).log = programsCompiled w.log ∧
    (∀ j, j ≠ i → (initObjectBody env scene i w).pass.objects[j]? = w.pass.objects[j]?) ∧
    (i < w.pass.objects.length →
      ∃ obj, (initObjectBody env scene i w).pass.objects[i]? = some obj ∧
        BuiltFromShape env scene i obj) := by
  refine ⟨?_, ?_, ?_, ?_, ?_⟩
  · simp [initObjectBody, World.call, World.setObject]
  · simp [initObjectBody, World.call, World.setObject, geometryCalls, buildCalls,
      List.filter_append]
  · simp [initObjectBody, World.call, World.setObject, programsCompiled, List.countP_append,
      List.countP_cons]
  · intro j hj
    simp [initObjectBody, World.call, World.setObject, List.getElem?_set, Ne.symm hj]
  · intro hi
    refine ⟨_, ?_, w.pass, (w.setObject i (env.buildVBO w.pass scene i)).pass,
      ((w.setObject i (env.buildVBO w.pass scene i)).setObject i
        (env.buildVAO (w.setObject i (env.buildVBO w.pass scene i)).pass scene i)).pass,
      ?_, ?_, rfl⟩
    · simp [initObjectBody, World.call, World.setObject, List.getElem?_set, hi,
        SimplePass.object, List.getD]
    · simp [World.setObject, List.getElem?_set, hi]
    · simp [World.setObject, List.getElem?_set, hi]

theorem objectFold_facts (env : Platform) (scene : Scene) :
    ∀ (k i : Nat) (w : World), i + k = w.pass.objects.length →
      ((List.range' i k).foldl (fun acc j => initObjectBody env scene j acc) w).pass.objects.length
          = w.pass.objects.length ∧
      geometryCalls ((List.range' i k).foldl (fun acc j => initObjectBody env scene j acc) w).log
          = geometryCalls w.log ++ (List.range' i k).flatMap buildCalls ∧
      programsCompiled
          ((List.range' i k).foldl (fun acc j => initObjectBody env scene j acc) w).log
          = programsCompiled w.log ∧
      (∀ j, j < i →
        ((List.range' i k).foldl (fun acc j => initObjectBody env scene j acc) w).pass.objects[j]?
          = w.pass.objects[j]?) ∧
      (∀ j, i ≤ j → j < i + k →
        ∃ obj,
          ((List.range' i k).foldl (fun acc j => initObjectBody env scene j acc)
            w).pass.objects[j]? = some obj ∧
          BuiltFromShape env scene j obj) := by
  intro k
  induction k with
  | zero =>
    intro i w _
    refine ⟨by simp, by simp, by simp, by simp, ?_⟩
    intro j h1 h2
    omega
  | succ k ih =>
    intro i w h
    obtain ⟨b1, b2, b3, b4, b5⟩ := initObjectBody_facts env scene i w
    obtain ⟨g1, g2, g3, g4, g5⟩ := ih (i + 1) (initObjectBody env scene i w) (by rw [b1]; omega)
    rw [List.range'_succ, List.foldl_cons]
    refine ⟨by rw [g1, b1], ?_, by rw [g3, b3], ?_, ?_⟩
    · rw [g2, b2, List.flatMap_cons, List.append_assoc]
    · intro j hj
      rw [g4 j (by omega), b4 j (by omega)]
    · intro j h1 h2
      by_cases hji : j = i
      · subst hji
        rw [g4 j (by omega)]
        exact b5 (by omega)
      · exact g5 j (by omega) (by omega)

theorem length_resize (xs : List GLObject) (n : Nat) : (resize xs n).length = n := by
  simp only [resize, List.length_append, List.length_take, List.length_replicate]
  omega

theorem init_facts (env : Platform) (scene : Scene) (config : Config) (p : SimplePass) :
    (SimplePass.init env scene config p).2.pass.objects.length = scene.shapes.length ∧
    geometryCalls (SimplePass.init env scene config p).2.log
        = (List.range scene.shapes.length).flatMap buildCalls ∧
    programsCompiled (SimplePass.init env scene config p).2.log = env.N_SHADERS ∧
    (∀ j, j < scene.shapes.length →
      ∃ obj, (SimplePass.init env scene config p).2.pass.objects[j]? = some obj ∧
        BuiltFromShape env scene j obj) := by
  have hs := forLoop_eq_foldl (fun _ : World => env.N_SHADERS) (initShaderBody env)
    (fun _ _ => rfl) env.N_SHADERS 0 ⟨(env.baseInit config p).2, [.baseInit (env.baseInit config p).1]⟩
    (by simp)
  obtain ⟨s1, s2, s3⟩ := shaderFold_facts env (env.N_SHADERS - 0) 0
    ⟨(env.baseInit config p).2, [.baseInit (env.baseInit config p).1]⟩
  rw [← hs] at s1 s2 s3
  generalize hw1 : forLoop (fun _ : World => env.N_SHADERS) (initShaderBody env) env.N_SHADERS 0
    ⟨(env.baseInit config p).2, [.baseInit (env.baseInit config p).1]⟩ = w1 at s1 s2 s3
  have hinit : SimplePass.init env scene config p
      = (true, forLoop (fun v => v.pass.objects.length) (initObjectBody env scene)
          (resize w1.pass.objects scene.shapes.length).length 0
          ⟨{ w1.pass with objects := resize w1.pass.objects scene.shapes.length }, w1.log⟩) := by
    rw [← hw1]
    rfl
  have ho := forLoop_eq_foldl (fun v : World => v.pass.objects.length) (initObjectBody env scene)
    (fun i s => (initObjectBody_facts env scene i s).1)
    (resize w1.pass.objects scene.shapes.length).length 0
    ⟨{ w1.pass with objects := resize w1.pass.objects scene.shapes.length }, w1.log⟩ (by simp)
  obtain ⟨o1, o2, o3, _, o5⟩ := objectFold_facts env scene
    (resize w1.pass.objects scene.shapes.length).length 0
    ⟨{ w1.pass with objects := resize w1.pass.objects scene.shapes.length }, w1.log⟩ (by simp)
  rw [hinit, ho]
  simp only [Nat.sub_zero]
  refine ⟨?_, ?_, ?_, ?_⟩
  · rw [o1]
    exact length_resize _ _
  · rw [o2, s3, length_resize, List.range_eq_range']
    simp [geometryCalls]
  · rw [o3, s2]
    simp [programsCompiled, List.countP_cons]
  · intro j hj
    exact o5 j (Nat.zero_le _) (by rw [length_resize]; omega)

/-! ## The claims on `SimplePass::init` -/

/-- Claim C5, refuted as stated: on a platform where `RenderPass::init` returns `false` and
both compile helpers return the null handle, `SimplePass::init` still returns `true`. -/
theorem init_succeeds_when_base_init_fails :
    (failingPlatform.baseInit ⟨[]⟩ freshPass).1 = false ∧
    failingPlatform.compileShader [] "simple.vs" GL_VERTEX_SHADER = 0 ∧
    failingPlatform.compileProgram [] 0 0 = 0 ∧
    (SimplePass.init failingPlatform demoScene ⟨[]⟩ freshPass).1 = true :=
  ⟨rfl, rfl, rfl, rfl⟩

/-- Claim C5, amended: `SimplePass::init` returns `true` on every platform, scene,
configuration and pass: the value returned by `RenderPass::init` is discarded and nothing
returned by `compileShader`, `compileProgram`, `buildVBO` or `buildVAO` is inspected, so the
value returned does not depend on the outcome of any of these steps. -/
theorem init_always_returns_true (env : Platform) (scene : Scene) (config : Config)
    (p : SimplePass) :
    (SimplePass.init env scene config p).1 = true ∧
    (∀ (other : Platform), (SimplePass.init other scene config p).1
        = (SimplePass.init env scene config p).1) :=
  ⟨rfl, fun _ => rfl⟩

/-- Claim C6: after `init` the drawable list has exactly as many records as the scene has
shapes; `buildVBO(i)`, `buildVAO(i)` and `assignShader(objects[i], shapes[i], bsdfs)` are
each called exactly once per index, in this order and in increasing `i`; record `i` is the
result of that `assignShader` call on shape `i`, applied to the record the two build calls
produced; exactly `N_SHADERS` programs are compiled; `init` returns success; on a scene
without shapes it returns success with no drawable record. -/
theorem init_one_record_per_shape (env : Platform) (scene : Scene) (config : Config)
    (p : SimplePass) (i : Nat) (hi : i < scene.shapes.length) :
    (SimplePass.init env scene config p).1 = true ∧
    (SimplePass.init env scene config p).2.pass.objects.length = scene.shapes.length ∧
    geometryCalls (SimplePass.init env scene config p).2.log
        = (List.range scene.shapes.length).flatMap
            (fun j => [Call.buildVBO j, Call.buildVAO j, Call.assignShader j j]) ∧
    (∃ obj, (SimplePass.init env scene config p).2.pass.objects[i]? = some obj ∧
        BuiltFromShape env scene i obj) ∧
    programsCompiled (SimplePass.init env scene config p).2.log = env.N_SHADERS ∧
    (SimplePass.init env ⟨[], scene.bsdfs, scene.bvh⟩ config p).1 = true ∧
    (SimplePass.init env ⟨[], scene.bsdfs, scene.bvh⟩ config p).2.pass.objects = [] := by
  obtain ⟨h1, h2, h3, h4⟩ := init_facts env scene config p
  refine ⟨rfl, h1, h2, h4 i hi, h3, rfl, ?_⟩
  have h0 := (init_facts env ⟨[], scene.bsdfs, scene.bvh⟩ config p).1
  exact List.length_eq_zero.mp h0

theorem init_one_record_per_shape_witness :
    1 < demoScene.shapes.length ∧
    (SimplePass.init demoPlatform demoScene ⟨[]⟩ freshPass).2.pass.objects.length = 2 ∧
    geometryCalls (SimplePass.init demoPlatform demoScene ⟨[]⟩ freshPass).2.log
        = [Call.buildVBO 0, Call.buildVAO 0, Call.assignShader 0 0,
           Call.buildVBO 1, Call.buildVAO 1, Call.assignShader 1 1] ∧
    programsCompiled (SimplePass.init demoPlatform demoScene ⟨[]⟩ freshPass).2.log = 2 :=
  have h := init_one_record_per_shape demoPlatform demoScene ⟨[]⟩ freshPass 1 (by decide)
  ⟨by decide, h.2.1, h.2.2.1, h.2.2.2.2.1⟩

end TinyRender
